import Mathlib

/-!
Verification of the TurboRally rally-racing simulation (`turbo_rally.py`).

The embedding is over `ℚ`: all arithmetic in the source is exact decimal
arithmetic on quantities far from floating-point edge cases, so rationals
model it faithfully.  The process-wide random generator is modelled by
passing draw values explicitly: `Race.lapTime` receives the single value
returned by `random.uniform(0.5, 1.5)` on line 70, and `Race.run` receives
a stream `ℕ → ℚ` supplying one fresh draw per lap.  The mutable
`leaderboard` dictionary is modelled as a function `String → Option ℚ`,
and `run`, which mutates `self`, returns the lap-time list together with
the updated `Race` value.
-/

/-- Python dataclass `Vehicle`: name, base top speed, handling and acceleration. -/
structure Vehicle where
  name : String
  speed : ℚ
  handling : ℚ
  acceleration : ℚ

/-- Method `Vehicle.performance_modifier`: `(self.handling + self.acceleration) / 2`. -/
def Vehicle.performance_modifier (v : Vehicle) : ℚ :=
  (v.handling + v.acceleration) / 2

/-- Python dataclass `Track`: name, terrain label, length in km, obstacle list. -/
structure Track where
  name : String
  terrain : String
  length_km : ℚ
  obstacles : List String

/-- Method `Track.terrain_modifier`: `TERRAIN_EFFECT.get(self.terrain, 1.0)` with
`TERRAIN_EFFECT = {"mud": 0.7, "gravel": 0.85, "sand": 0.8}`. -/
def Track.terrain_modifier (t : Track) : ℚ :=
  if t.terrain = "mud" then 7/10
  else if t.terrain = "gravel" then 17/20
  else if t.terrain = "sand" then 4/5
  else 1

/-- Python dataclass `Weather`: a condition label. -/
structure Weather where
  condition : String

/-- Method `Weather.traction_modifier`: `WEATHER_EFFECT.get(self.condition, 1.0)` with
`WEATHER_EFFECT = {"clear": 1.0, "rain": 0.8, "storm": 0.7}`. -/
def Weather.traction_modifier (w : Weather) : ℚ :=
  if w.condition = "clear" then 1
  else if w.condition = "rain" then 4/5
  else if w.condition = "storm" then 7/10
  else 1

/-- State of a `Race` object as set up by `Race.__init__`: track, weather, lap count, and the leaderboard
dictionary (modelled as a partial map from vehicle name to total minutes). -/
structure Race where
  track : Track
  weather : Weather
  laps : ℕ
  leaderboard : String → Option ℚ

/-- Method `Race._lap_time(vehicle)` with the value `u` drawn by
`random.uniform(0.5, 1.5)` passed explicitly:
`base_speed = vehicle.speed * vehicle.performance_modifier()`;
`speed = base_speed * terrain_modifier * traction_modifier`;
`obstacle_penalty = len(obstacles) * u`;
`time_hours = length_km / max(speed - obstacle_penalty, 1)`;
returns `time_hours * 60`. -/
def Race.lapTime (r : Race) (v : Vehicle) (u : ℚ) : ℚ :=
  let base_speed := v.speed * v.performance_modifier
  let speed := base_speed * r.track.terrain_modifier * r.weather.traction_modifier
  let obstacle_penalty := (r.track.obstacles.length : ℚ) * u
  let time_hours := r.track.length_km / max (speed - obstacle_penalty) 1
  time_hours * 60

/-- Method `Race.run(vehicle)`: one fresh draw `us i` per lap `i`; collects the lap
times in order, sums them, and writes `leaderboard[vehicle.name] = total`
(the write happens unconditionally, even when `laps = 0`).  Returns the
lap-time list and the updated race state. -/
def Race.run (r : Race) (v : Vehicle) (us : ℕ → ℚ) : List ℚ × Race :=
  let times := (List.range r.laps).map (fun i => r.lapTime v (us i))
  let total := times.sum
  (times, { r with leaderboard := fun n => if n = v.name then some total else r.leaderboard n })

/-- Scenario vehicle of spec section 8 and of `test_race.py`:
`Vehicle("Test Car", 140, 0.9, 0.8)`. -/
def testCar : Vehicle :=
  { name := "Test Car", speed := 140, handling := 9/10, acceleration := 4/5 }

/-- Scenario track of spec section 8 and of `test_race.py`:
`Track("Test Track", "gravel", 1.0, [])`. -/
def testTrack : Track :=
  { name := "Test Track", terrain := "gravel", length_km := 1, obstacles := [] }

/-- Scenario race `Race(testTrack, Weather("clear"), laps=1)` with an empty
leaderboard, as built by `Race.__init__`. -/
def clearRace : Race :=
  { track := testTrack, weather := { condition := "clear" }, laps := 1,
    leaderboard := fun _ => none }

/-- Scenario race with the same track but `Weather("storm")`. -/
def stormRace : Race :=
  { track := testTrack, weather := { condition := "storm" }, laps := 1,
    leaderboard := fun _ => none }

/-- C1: for every race, vehicle and draw value u in the range of
uniform(0.5, 1.5), the lap-time computation returns
60 * length_km / max(speed * ((handling + acceleration) / 2) *
terrain_modifier * traction_modifier - obstacle_count * u, 1),
with the single draw u scaled by the obstacle count. -/
theorem lapTime_closed_form (r : Race) (v : Vehicle) (u : ℚ)
    (_hu : 1/2 ≤ u ∧ u ≤ 3/2) :
    r.lapTime v u =
      60 * r.track.length_km /
        max (v.speed * ((v.handling + v.acceleration) / 2) *
              r.track.terrain_modifier * r.weather.traction_modifier -
             (r.track.obstacles.length : ℚ) * u) 1 := by
  unfold Race.lapTime Vehicle.performance_modifier
  rw [div_mul_eq_mul_div, mul_comm]

/-- Witness for C1: the closed form evaluated at the clear-weather scenario
race with draw 1. -/
theorem lapTime_closed_form_witness :
    clearRace.lapTime testCar 1 =
      60 * clearRace.track.length_km /
        max (testCar.speed * ((testCar.handling + testCar.acceleration) / 2) *
              clearRace.track.terrain_modifier * clearRace.weather.traction_modifier -
             (clearRace.track.obstacles.length : ℚ) * 1) 1 :=
  lapTime_closed_form clearRace testCar 1 (by norm_num)

/-- C6: terrain_modifier returns 0.7 for "mud", 0.85 for "gravel",
0.8 for "sand", and 1.0 for every other terrain string. -/
theorem terrain_modifier_table (t : Track) :
    (t.terrain = "mud" → t.terrain_modifier = 7/10) ∧
    (t.terrain = "gravel" → t.terrain_modifier = 17/20) ∧
    (t.terrain = "sand" → t.terrain_modifier = 4/5) ∧
    (t.terrain ≠ "mud" → t.terrain ≠ "gravel" → t.terrain ≠ "sand" →
      t.terrain_modifier = 1) := by
  unfold Track.terrain_modifier
  refine ⟨fun h => ?_, fun h => ?_, fun h => ?_, fun h1 h2 h3 => ?_⟩
  · simp [h]
  · rw [if_neg (by rw [h]; decide), if_pos h]
  · rw [if_neg (by rw [h]; decide), if_neg (by rw [h]; decide), if_pos h]
  · rw [if_neg h1, if_neg h2, if_neg h3]

/-- Witness for C6: the four table cases evaluated on concrete tracks. -/
theorem terrain_modifier_table_witness :
    Track.terrain_modifier { name := "a", terrain := "mud", length_km := 1, obstacles := [] } = 7/10 ∧
    Track.terrain_modifier { name := "a", terrain := "gravel", length_km := 1, obstacles := [] } = 17/20 ∧
    Track.terrain_modifier { name := "a", terrain := "sand", length_km := 1, obstacles := [] } = 4/5 ∧
    Track.terrain_modifier { name := "a", terrain := "tarmac", length_km := 1, obstacles := [] } = 1 :=
  ⟨(terrain_modifier_table _).1 rfl,
   (terrain_modifier_table _).2.1 rfl,
   (terrain_modifier_table _).2.2.1 rfl,
   (terrain_modifier_table _).2.2.2 (by decide) (by decide) (by decide)⟩

/-- C7: traction_modifier returns 1.0 for "clear", 0.8 for "rain",
0.7 for "storm", and 1.0 for every other condition string. -/
theorem traction_modifier_table (w : Weather) :
    (w.condition = "clear" → w.traction_modifier = 1) ∧
    (w.condition = "rain" → w.traction_modifier = 4/5) ∧
    (w.condition = "storm" → w.traction_modifier = 7/10) ∧
    (w.condition ≠ "clear" → w.condition ≠ "rain" → w.condition ≠ "storm" →
      w.traction_modifier = 1) := by
  unfold Weather.traction_modifier
  refine ⟨fun h => ?_, fun h => ?_, fun h => ?_, fun h1 h2 h3 => ?_⟩
  · simp [h]
  · rw [if_neg (by rw [h]; decide), if_pos h]
  · rw [if_neg (by rw [h]; decide), if_neg (by rw [h]; decide), if_pos h]
  · rw [if_neg h1, if_neg h2, if_neg h3]

/-- Witness for C7: the four table cases evaluated on concrete weathers. -/
theorem traction_modifier_table_witness :
    Weather.traction_modifier { condition := "clear" } = 1 ∧
    Weather.traction_modifier { condition := "rain" } = 4/5 ∧
    Weather.traction_modifier { condition := "storm" } = 7/10 ∧
    Weather.traction_modifier { condition := "fog" } = 1 :=
  ⟨(traction_modifier_table _).1 rfl,
   (traction_modifier_table _).2.1 rfl,
   (traction_modifier_table _).2.2.1 rfl,
   (traction_modifier_table _).2.2.2 (by decide) (by decide) (by decide)⟩

/-- C9: when the track's obstacle list is empty, the lap time is independent
of the random draw: any two draws give equal results. -/
theorem lapTime_draw_independent (r : Race) (v : Vehicle) (u1 u2 : ℚ)
    (h : r.track.obstacles = []) : r.lapTime v u1 = r.lapTime v u2 := by
  unfold Race.lapTime
  rw [h]
  simp

/-- Witness for C9: the scenario race with draws 0 and 1. -/
theorem lapTime_draw_independent_witness :
    clearRace.lapTime testCar 0 = clearRace.lapTime testCar 1 :=
  lapTime_draw_independent clearRace testCar 0 1 rfl

/-- Race with the scenario track, clear weather and laps = 0, with an empty
leaderboard. -/
def zeroLapRace : Race :=
  { track := testTrack, weather := { condition := "clear" }, laps := 0,
    leaderboard := fun _ => none }

/-- Helper: in the clear-weather scenario every draw gives lap time
1200/2023 minutes. -/
lemma clearRace_lapTime (u : ℚ) : clearRace.lapTime testCar u = 1200/2023 := by
  unfold Race.lapTime
  rw [show clearRace.track.terrain_modifier = 17/20 from rfl,
      show clearRace.weather.traction_modifier = 1 from rfl,
      show ((clearRace.track.obstacles.length : ℚ)) = 0 from rfl,
      show clearRace.track.length_km = 1 from rfl,
      show testCar.speed = 140 from rfl,
      show testCar.performance_modifier = 17/20 from
        by norm_num [Vehicle.performance_modifier, testCar]]
  norm_num [max_def]

/-- Helper: in the storm-weather scenario every draw gives lap time
12000/14161 minutes. -/
lemma stormRace_lapTime (u : ℚ) : stormRace.lapTime testCar u = 12000/14161 := by
  unfold Race.lapTime
  rw [show stormRace.track.terrain_modifier = 17/20 from rfl,
      show stormRace.weather.traction_modifier = 7/10 from rfl,
      show ((stormRace.track.obstacles.length : ℚ)) = 0 from rfl,
      show stormRace.track.length_km = 1 from rfl,
      show testCar.speed = 140 from rfl,
      show testCar.performance_modifier = 17/20 from
        by norm_num [Vehicle.performance_modifier, testCar]]
  norm_num [max_def]

/-- C2 counterexample: in the section-8 scenario the single lap time is
1200/2023 = 0.5931... minutes, which differs from the claimed approximation
0.499 by more than 0.09, so the lap time is not approximately 0.499 minutes. -/
theorem scenario_lap_time_not_0499 :
    clearRace.lapTime testCar 1 = 1200/2023 ∧
    clearRace.lapTime testCar 1 - 499/1000 > 9/100 := by
  rw [clearRace_lapTime]
  norm_num

/-- C2 amended: for the scenario vehicle, track, clear weather and laps = 1,
regardless of the random draws the single lap time equals
(1.0 / (140 * 0.85 * 0.85 * 1.0)) * 60 minutes (which is 1200/2023, about
0.593 minutes), and after run() the leaderboard entry for "Test Car" equals
this value. -/
theorem scenario_lap_time_and_leaderboard (us : ℕ → ℚ) :
    (clearRace.run testCar us).1 = [1 / (140 * (17/20) * (17/20) * 1) * 60] ∧
    (clearRace.run testCar us).2.leaderboard "Test Car" =
      some (1 / (140 * (17/20) * (17/20) * 1) * 60) := by
  have hval : (1 : ℚ) / (140 * (17/20) * (17/20) * 1) * 60 = 1200/2023 := by norm_num
  have h1 : (clearRace.run testCar us).1 = [clearRace.lapTime testCar (us 0)] := rfl
  have h2 : (clearRace.run testCar us).2.leaderboard "Test Car" =
      some (clearRace.lapTime testCar (us 0) + 0) := rfl
  rw [hval, h1, h2, clearRace_lapTime, add_zero]
  exact ⟨rfl, rfl⟩

/-- C3 counterexample: with laps = 0, run returns the empty sequence but does
not leave the leaderboard unchanged: the entry for the vehicle's name, absent
before the call, is set to 0 (the sum of no laps). -/
theorem zero_laps_writes_leaderboard :
    (zeroLapRace.run testCar (fun _ => 1)).1 = [] ∧
    zeroLapRace.leaderboard "Test Car" = none ∧
    (zeroLapRace.run testCar (fun _ => 1)).2.leaderboard "Test Car" = some 0 := by
  refine ⟨rfl, rfl, ?_⟩
  simp [Race.run, zeroLapRace, testCar]

/-- C3 amended: for every race constructed with laps = 0 and every vehicle,
run returns an empty sequence, sets the leaderboard entry for the vehicle's
name to 0 (the empty sum), and leaves every other leaderboard entry
unchanged. -/
theorem zero_laps_run (tr : Track) (w : Weather) (lb : String → Option ℚ)
    (v : Vehicle) (us : ℕ → ℚ) :
    ((Race.mk tr w 0 lb).run v us).1 = [] ∧
    ((Race.mk tr w 0 lb).run v us).2.leaderboard v.name = some 0 ∧
    ∀ n, n ≠ v.name → ((Race.mk tr w 0 lb).run v us).2.leaderboard n = lb n := by
  refine ⟨rfl, by simp [Race.run], fun n hn => ?_⟩
  simp [Race.run, hn]

/-- Witness for C3 amended: the zero-lap scenario race, checked at the
vehicle's own name and at a different name. -/
theorem zero_laps_run_witness :
    (zeroLapRace.run testCar (fun _ => 1)).1 = [] ∧
    (zeroLapRace.run testCar (fun _ => 1)).2.leaderboard "Test Car" = some 0 ∧
    (zeroLapRace.run testCar (fun _ => 1)).2.leaderboard "Other" = none := by
  have h := zero_laps_run testTrack { condition := "clear" } (fun _ => none)
    testCar (fun _ => 1)
  exact ⟨h.1, h.2.1, h.2.2 "Other" (by decide)⟩

/-- C8: for the section-8 scenario vehicle and track, the lap time under
storm weather is strictly larger than under clear weather, for any draws. -/
theorem storm_slower_than_clear (u1 u2 : ℚ) :
    clearRace.lapTime testCar u1 < stormRace.lapTime testCar u2 := by
  rw [clearRace_lapTime, stormRace_lapTime]
  norm_num

/-- C4: for laps = L at least 1, a track of positive length, and any draws
in the range of uniform(0.5, 1.5), run returns exactly L lap times, each
strictly positive (the denominator is floored at 1). -/
theorem run_length_and_positive (tr : Track) (w : Weather) (L : ℕ)
    (lb : String → Option ℚ) (v : Vehicle) (us : ℕ → ℚ)
    (_hL : 1 ≤ L) (hlen : 0 < tr.length_km)
    (_hus : ∀ i, 1/2 ≤ us i ∧ us i ≤ 3/2) :
    ((Race.mk tr w L lb).run v us).1.length = L ∧
    ∀ t ∈ ((Race.mk tr w L lb).run v us).1, 0 < t := by
  constructor
  · simp [Race.run]
  · intro t ht
    simp only [Race.run, List.mem_map, List.mem_range] at ht
    obtain ⟨i, hi, rfl⟩ := ht
    show 0 < tr.length_km /
        max (v.speed * v.performance_modifier * tr.terrain_modifier *
              w.traction_modifier - (tr.obstacles.length : ℚ) * us i) 1 * 60
    have h1 : (0:ℚ) < max (v.speed * v.performance_modifier * tr.terrain_modifier *
        w.traction_modifier - (tr.obstacles.length : ℚ) * us i) 1 :=
      lt_of_lt_of_le one_pos (le_max_right _ _)
    exact mul_pos (div_pos hlen h1) (by norm_num)

/-- Witness for C4: the clear-weather scenario race with constant draw 1. -/
theorem run_length_and_positive_witness :
    ((Race.mk testTrack { condition := "clear" } 1 (fun _ => none)).run
        testCar (fun _ => 1)).1.length = 1 ∧
    ∀ t ∈ ((Race.mk testTrack { condition := "clear" } 1 (fun _ => none)).run
        testCar (fun _ => 1)).1, 0 < t :=
  run_length_and_positive testTrack { condition := "clear" } 1 (fun _ => none)
    testCar (fun _ => 1) (by norm_num) (by norm_num [testTrack])
    (fun i => by norm_num)

/-- C10: the terrain and weather lookups are case-sensitive: a terrain equal
to "mud", "gravel" or "sand" up to letter case but not exactly equal to any
of them falls through to the neutral modifier 1.0, and likewise a condition
equal to "clear", "rain" or "storm" up to letter case but not exactly. -/
theorem lookups_case_sensitive (t : Track) (w : Weather) :
    ((t.terrain.data.map Char.toLower = "mud".data ∨
      t.terrain.data.map Char.toLower = "gravel".data ∨
      t.terrain.data.map Char.toLower = "sand".data) →
     t.terrain ≠ "mud" → t.terrain ≠ "gravel" → t.terrain ≠ "sand" →
     t.terrain_modifier = 1) ∧
    ((w.condition.data.map Char.toLower = "clear".data ∨
      w.condition.data.map Char.toLower = "rain".data ∨
      w.condition.data.map Char.toLower = "storm".data) →
     w.condition ≠ "clear" → w.condition ≠ "rain" → w.condition ≠ "storm" →
     w.traction_modifier = 1) := by
  constructor
  · intro _ h1 h2 h3
    unfold Track.terrain_modifier
    rw [if_neg h1, if_neg h2, if_neg h3]
  · intro _ h1 h2 h3
    unfold Weather.traction_modifier
    rw [if_neg h1, if_neg h2, if_neg h3]

/-- Witness for C10: terrain "Mud" and condition "Rain" both give 1.0. -/
theorem lookups_case_sensitive_witness :
    Track.terrain_modifier { name := "a", terrain := "Mud", length_km := 1, obstacles := [] } = 1 ∧
    Weather.traction_modifier { condition := "Rain" } = 1 :=
  ⟨(lookups_case_sensitive
      { name := "a", terrain := "Mud", length_km := 1, obstacles := [] }
      { condition := "Rain" }).1
      (Or.inl (by decide)) (by decide) (by decide) (by decide),
   (lookups_case_sensitive
      { name := "a", terrain := "Mud", length_km := 1, obstacles := [] }
      { condition := "Rain" }).2
      (Or.inr (Or.inl (by decide))) (by decide) (by decide) (by decide)⟩

/-- Iterated execution: perform a sequence of run() calls on a race, each
call a vehicle paired with its per-lap draw stream, threading the mutated
race state. -/
def Race.runAll (r : Race) (calls : List (Vehicle × (ℕ → ℚ))) : Race :=
  calls.foldl (fun s c => (s.run c.1 c.2).2) r

/-- Total race time (sum of lap times) produced by one call on a race with
the given track, weather and lap count; the lap times never read the
leaderboard, so the choice of leaderboard is immaterial. -/
def callTotal (tr : Track) (w : Weather) (L : ℕ) (c : Vehicle × (ℕ → ℚ)) : ℚ :=
  ((Race.mk tr w L (fun _ => none)).run c.1 c.2).1.sum

/-- Characterization following the section-3 invariant of the spec: the
leaderboard value expected at name n after a sequence of calls, namely the
total of the most recent call whose vehicle is named n, or none when no call
used that name (later calls shadow earlier ones). -/
def mostRecentTotal (tr : Track) (w : Weather) (L : ℕ) :
    List (Vehicle × (ℕ → ℚ)) → String → Option ℚ
  | [], _ => none
  | c :: cs, n =>
    match mostRecentTotal tr w L cs n with
    | some t => some t
    | none => if n = c.1.name then some (callTotal tr w L c) else none

/-- Helper: first component of an option, falling back to a default when
none (the shadowing combinator for leaderboard overlays). -/
def overrideWith (o d : Option ℚ) : Option ℚ :=
  match o with
  | some t => some t
  | none => d

lemma runAll_leaderboard_aux (tr : Track) (w : Weather) (L : ℕ)
    (calls : List (Vehicle × (ℕ → ℚ))) :
    ∀ (r : Race), r.track = tr → r.weather = w → r.laps = L → ∀ n,
      (r.runAll calls).leaderboard n =
        overrideWith (mostRecentTotal tr w L calls n) (r.leaderboard n) := by
  induction calls with
  | nil =>
    intro r htr hw hL n
    rfl
  | cons c cs ih =>
    intro r htr hw hL n
    have hstep : r.runAll (c :: cs) = ((r.run c.1 c.2).2).runAll cs := rfl
    rw [hstep, ih ((r.run c.1 c.2).2) htr hw hL n]
    have hlb : (r.run c.1 c.2).2.leaderboard n =
        if n = c.1.name then some ((r.run c.1 c.2).1.sum) else r.leaderboard n := rfl
    have hct : (r.run c.1 c.2).1.sum = callTotal tr w L c := by
      subst htr hw hL
      rfl
    cases hmrt : mostRecentTotal tr w L cs n with
    | some t =>
      simp [mostRecentTotal, overrideWith, hmrt]
    | none =>
      simp only [mostRecentTotal, hmrt, overrideWith, hlb, hct]
      by_cases hn : n = c.1.name
      · rw [if_pos hn, if_pos hn]
      · rw [if_neg hn, if_neg hn]

lemma mostRecentTotal_ne_none (tr : Track) (w : Weather) (L : ℕ) (n : String)
    (calls : List (Vehicle × (ℕ → ℚ))) :
    mostRecentTotal tr w L calls n ≠ none ↔ ∃ c ∈ calls, c.1.name = n := by
  induction calls with
  | nil => simp [mostRecentTotal]
  | cons c cs ih =>
    cases hmrt : mostRecentTotal tr w L cs n with
    | some t =>
      simp only [mostRecentTotal, hmrt]
      constructor
      · intro _
        obtain ⟨d, hd, hname⟩ := ih.mp (by rw [hmrt]; exact fun h => Option.noConfusion h)
        exact ⟨d, List.mem_cons_of_mem _ hd, hname⟩
      · intro _
        exact fun h => Option.noConfusion h
    | none =>
      simp only [mostRecentTotal, hmrt]
      by_cases hn : n = c.1.name
      · rw [if_pos hn]
        constructor
        · intro _
          exact ⟨c, List.mem_cons_self _ _, hn.symm⟩
        · intro _
          exact fun h => Option.noConfusion h
      · rw [if_neg hn]
        constructor
        · intro hne
          exact absurd rfl hne
        · rintro ⟨d, hd, hname⟩
          rcases List.mem_cons.mp hd with rfl | hd'
          · exact absurd hname.symm hn
          · have h := ih.mpr ⟨d, hd', hname⟩
            rw [hmrt] at h
            exact absurd rfl h

/-- C5: starting from a freshly constructed race (empty leaderboard), after
any sequence of run() calls the leaderboard entry at each name equals the
total of the most recent call whose vehicle bears that name, and an entry
exists exactly for the names on which run() was called at least once; in
particular, after two runs of the same vehicle the second total is the one
recorded. -/
theorem leaderboard_tracks_most_recent_run (tr : Track) (w : Weather) (L : ℕ)
    (calls : List (Vehicle × (ℕ → ℚ))) (n : String) :
    ((Race.mk tr w L (fun _ => none)).runAll calls).leaderboard n =
        mostRecentTotal tr w L calls n ∧
    (((Race.mk tr w L (fun _ => none)).runAll calls).leaderboard n ≠ none ↔
        ∃ c ∈ calls, c.1.name = n) := by
  have h := runAll_leaderboard_aux tr w L calls
    (Race.mk tr w L (fun _ => none)) rfl rfl rfl n
  have h' : ((Race.mk tr w L (fun _ => none)).runAll calls).leaderboard n =
      mostRecentTotal tr w L calls n := by
    rw [h]
    cases mostRecentTotal tr w L calls n <;> rfl
  refine ⟨h', ?_⟩
  rw [h']
  exact mostRecentTotal_ne_none tr w L n calls
